import Mathlib

/-
Verification development for the MultiModal AI Dataset Creator repository.

The definitions below are a shallow embedding of the Python sources
src/scripts/format_converter.py and src/scripts/qa_checker.py.
Numeric values computed with Python arithmetic are modelled over the
rationals; Python dictionaries (insertion ordered, key update in place)
are modelled as association lists with matching insert and lookup
operations; Python truthiness tests on dimensions and strings are
modelled by explicit predicates.  File system access (reading the input,
writing output files, checking that an image file exists) is abstracted:
converters take the parsed dataset and return the data that the code
would write, and validators take a caller supplied existence predicate.
Messages rendered by the code are modelled as strings; the quote
characters that Python puts around a KeyError argument are omitted from
the modelled message text.
-/

/- Association list with Python dict semantics: updating an existing key
keeps its position, a new key is appended. -/
def dictInsert {α β : Type} [BEq α] (k : α) (v : β) (d : List (α × β)) :
    List (α × β) :=
  if d.any (fun p => p.1 == k) then
    d.map (fun p => if p.1 == k then (k, v) else p)
  else d ++ [(k, v)]

/- Lookup in the association list, mirroring dict.get. -/
def dictGet? {α β : Type} [BEq α] (d : List (α × β)) (k : α) : Option β :=
  (d.find? (fun p => p.1 == k)).map (fun p => p.2)

/- Counter increment, mirroring collections.Counter update. -/
def counterAdd (d : List (String × Nat)) (k : String) : List (String × Nat) :=
  if d.any (fun p => p.1 == k) then
    d.map (fun p => if p.1 == k then (p.1, p.2 + 1) else p)
  else d ++ [(k, 1)]

/- Absolute top-left bounding box [x, y, width, height], COCO style. -/
structure Bbox where
  x : ℚ
  y : ℚ
  w : ℚ
  h : ℚ
deriving DecidableEq

/- Normalized center-form box (x_center, y_center, width, height). -/
structure NormBox where
  xc : ℚ
  yc : ℚ
  w : ℚ
  h : ℚ
deriving DecidableEq

/- Forward transform, exactly the four formulas of
format_converter.py lines 90 to 93. -/
def to_normalized_center (b : Bbox) (W H : ℚ) : NormBox :=
  { xc := (b.x + b.w / 2) / W
    yc := (b.y + b.h / 2) / H
    w := b.w / W
    h := b.h / H }

/- Inverse transform, exactly the formulas of
format_converter.py lines 208 to 219. -/
def to_absolute_topleft (n : NormBox) (W H : ℚ) : Bbox :=
  { x := n.xc * W - n.w * W / 2
    y := n.yc * H - n.h * H / 2
    w := n.w * W
    h := n.h * H }

/- An image record of the dictionary-style (COCO) input; the file_name
field holds the stem used to name the emitted line file, and a none
dimension models an absent width or height key. -/
structure CocoImage where
  id : ℤ
  file_name : String
  width : Option ℤ
  height : Option ℤ
deriving DecidableEq

/- A detection record of the dictionary-style input as read by
coco_to_yolo; the four bbox components are the entries bbox[0]..bbox[3]
accessed by the code. -/
structure CocoAnn where
  id : ℤ
  image_id : ℤ
  category_id : ℤ
  bbox : Bbox
deriving DecidableEq

/- A category record of the dictionary-style input. -/
structure CocoCategory where
  id : ℤ
  name : String
deriving DecidableEq

/- The parsed dictionary-style dataset; a none field models a missing
top-level key (the code reads every key with coco_data.get(key, [])). -/
structure CocoDataset where
  images : Option (List CocoImage)
  annotations : Option (List CocoAnn)
  categories : Option (List CocoCategory)
deriving DecidableEq

/- One emitted line of a YOLO txt file: class id followed by the four
normalized floats. -/
structure YoloEmittedLine where
  class_id : ℕ
  xc : ℚ
  yc : ℚ
  w : ℚ
  h : ℚ
deriving DecidableEq

/- Everything coco_to_yolo writes or reports: the per-image line files,
the classes file content, the logged warnings, and the returned Bool. -/
structure CocoToYoloResult where
  files : List (String × List YoloEmittedLine)
  classes : List String
  warnings : List String
  success : Bool
deriving DecidableEq

/- The category id to name dict of format_converter.py line 59. -/
def buildCategories (cats : List CocoCategory) : List (ℤ × String) :=
  cats.foldl (fun d c => dictInsert c.id c.name d) []

/- The name to index dict comprehension of format_converter.py line 60,
enumerating the dict values in order. -/
def buildCategoryToIdAux (i : ℕ) (d : List (String × ℕ)) :
    List String → List (String × ℕ)
  | [] => d
  | v :: rest => buildCategoryToIdAux (i + 1) (dictInsert v i d) rest

def buildCategoryToId (values : List String) : List (String × ℕ) :=
  buildCategoryToIdAux 0 [] values

def convCats (d : CocoDataset) : List (ℤ × String) :=
  buildCategories ((d.categories).getD [])

def convCatToId (d : CocoDataset) : List (String × ℕ) :=
  buildCategoryToId ((convCats d).map (fun p => p.2))

/- image.get(key, default) of format_converter.py lines 75 and 76: the
recorded value wins, the caller default is used only when absent. -/
def resolveDim : Option ℤ → Option ℤ → Option ℤ
  | some n, _ => some n
  | none, dflt => dflt

/- Python truthiness of the resolved dimension in the skip test of line
78: None and 0 are falsy, every other integer (negatives included) is
truthy. -/
def dimFalsy : Option ℤ → Bool
  | none => true
  | some n => n == 0

/- One emitted line for one detection record, format_converter.py lines
85 to 95: category name lookup with fallback unknown, class index
lookup with fallback 0, then the normalized center transform. -/
def yoloLineFor (cats : List (ℤ × String)) (c2i : List (String × ℕ))
    (W H : ℤ) (a : CocoAnn) : YoloEmittedLine :=
  let name := (dictGet? cats a.category_id).getD ("unknown")
  let cid := (dictGet? c2i name).getD 0
  let n := to_normalized_center a.bbox (W : ℚ) (H : ℚ)
  { class_id := cid, xc := n.xc, yc := n.yc, w := n.w, h := n.h }

/- The per-image body of the conversion loop, format_converter.py lines
71 to 100: resolve the dimensions, skip the image when either resolved
dimension is falsy, otherwise emit one line per detection record of the
image in input order.  Returns none exactly when the image is skipped. -/
def emitFileFor (cats : List (ℤ × String)) (c2i : List (String × ℕ))
    (anns : List CocoAnn) (dW dH : Option ℤ) (img : CocoImage) :
    Option (String × List YoloEmittedLine) :=
  match resolveDim img.width dW, resolveDim img.height dH with
  | some W, some H =>
    if W = 0 ∨ H = 0 then none
    else
      some (img.file_name,
        (anns.filter (fun a => a.image_id == img.id)).map
          (yoloLineFor cats c2i W H))
  | _, _ => none

/- FormatConverter.coco_to_yolo on a parsed dataset.  Every top-level
key is read with a default empty list; the whole call returns True
whenever no exception escapes, which is the case for every input of
this model. -/
def coco_to_yolo (d : CocoDataset) (dW dH : Option ℤ) : CocoToYoloResult :=
  let cats := convCats d
  let c2i := convCatToId d
  let anns := (d.annotations).getD []
  let images := (d.images).getD []
  { files := images.filterMap (emitFileFor cats c2i anns dW dH)
    warnings := images.filterMap (fun img =>
      if (emitFileFor cats c2i anns dW dH img).isNone then
        some (("Missing dimensions for ") ++ img.file_name)
      else none)
    classes := c2i.map (fun p => p.1)
    success := true }

/- One parsed line of a YOLO txt file as read by yolo_to_coco: the
leading integer class token and the remaining numeric fields.  Blank
lines and lines with fewer than five tokens are both skipped by the
code; a blank line is represented with an empty fields list, which is
skipped the same way. -/
structure YoloLine where
  classId : ℤ
  fields : List ℚ
deriving DecidableEq

/- One YOLO txt file of the input directory (classes.txt excluded):
its stem, the matched image with its basename and decoded dimensions
(none when no image with an accepted extension exists), and its lines. -/
structure YoloFile where
  stem : String
  image : Option (String × ℤ × ℤ)
  lines : List YoloLine
deriving DecidableEq

/- An image record of the emitted dictionary-style dataset. -/
structure OutCocoImage where
  id : ℕ
  width : ℤ
  height : ℤ
  file_name : String
deriving DecidableEq

/- A detection record of the emitted dictionary-style dataset. -/
structure OutCocoAnn where
  id : ℕ
  image_id : ℕ
  category_id : ℤ
  bbox : Bbox
  area : ℚ
  iscrowd : ℕ
deriving DecidableEq

/- A category record of the emitted dictionary-style dataset. -/
structure OutCocoCat where
  id : ℕ
  name : String
deriving DecidableEq

/- Everything yolo_to_coco writes or reports. -/
structure YoloToCocoResult where
  images : List OutCocoImage
  annotations : List OutCocoAnn
  categories : List OutCocoCat
  warnings : List String
  success : Bool
deriving DecidableEq

/- The categories list built by enumerate over the loaded class names,
format_converter.py lines 156 to 161. -/
def catsFrom (i : ℕ) : List String → List OutCocoCat
  | [] => []
  | n :: rest => { id := i, name := n } :: catsFrom (i + 1) rest

/- The per-line body of the annotation loop, format_converter.py lines
203 to 229: a line with fewer than five tokens is dropped, otherwise the
inverse transform is applied and a record with the next annotation id is
appended; category_id is the class token copied verbatim. -/
def lineStep (W H : ℤ) (imageId : ℕ) (a : List OutCocoAnn × ℕ)
    (l : YoloLine) : List OutCocoAnn × ℕ :=
  if 4 ≤ l.fields.length then
    let nb : NormBox :=
      { xc := l.fields.getD 0 0, yc := l.fields.getD 1 0
        w := l.fields.getD 2 0, h := l.fields.getD 3 0 }
    let bb := to_absolute_topleft nb (W : ℚ) (H : ℚ)
    (a.1 ++ [{ id := a.2, image_id := imageId, category_id := l.classId
               bbox := bb, area := bb.w * bb.h, iscrowd := 0 }], a.2 + 1)
  else a

/- Accumulator of the conversion over the txt files. -/
structure Y2CAcc where
  images : List OutCocoImage
  anns : List OutCocoAnn
  nextId : ℕ
  warns : List String

/- The per-file body of the conversion loop, format_converter.py lines
166 to 229: a file without a matched image is skipped with a warning;
otherwise its image gets the next sequential id (the position at which
it is appended to the output images list) and its lines are parsed. -/
def fileStep (acc : Y2CAcc) (file : YoloFile) : Y2CAcc :=
  match file.image with
  | none =>
    { acc with warns := acc.warns ++ [("No image found for ") ++ file.stem] }
  | some (nameExt, W, H) =>
    let imageId := acc.images.length
    let p := file.lines.foldl (lineStep W H imageId) (acc.anns, acc.nextId)
    { images := acc.images ++
        [{ id := imageId, width := W, height := H, file_name := nameExt }]
      anns := p.1
      nextId := p.2
      warns := acc.warns }

/- FormatConverter.yolo_to_coco on a directory of parsed txt files and
an already loaded class-name list; annotation ids start at 1. -/
def yolo_to_coco (classes : List String) (files : List YoloFile) :
    YoloToCocoResult :=
  let acc := files.foldl fileStep { images := [], anns := [], nextId := 1, warns := [] }
  { images := acc.images
    annotations := acc.anns
    categories := catsFrom 0 classes
    warnings := acc.warns
    success := true }

/- A detection record as seen by validate_image_annotations: every field
is optional so that a missing key can be modelled. -/
structure QAAnn where
  id : Option ℤ
  image_id : Option ℤ
  category_id : Option ℤ
  bbox : Option (List ℚ)
deriving DecidableEq

/- An image record as seen by the validator. -/
structure QAImage where
  id : ℤ
  file_name : String
deriving DecidableEq

/- A category record as seen by the validator. -/
structure QACat where
  id : ℤ
  name : String
deriving DecidableEq

/- The parsed dataset handed to the validator; a none field models a
missing top-level key. -/
structure QADataset where
  images : Option (List QAImage)
  annotations : Option (List QAAnn)
  categories : Option (List QACat)
deriving DecidableEq

/- The results dict of validate_image_annotations, qa_checker.py lines
51 to 59. -/
structure ImageQAResult where
  total_images : ℕ
  total_annotations : ℕ
  missing_images : List String
  invalid_bboxes : List String
  class_distribution : List (String × ℕ)
  errors : List String
  warnings : List String
deriving DecidableEq

def emptyImageQA : ImageQAResult :=
  { total_images := 0, total_annotations := 0, missing_images := []
    invalid_bboxes := [], class_distribution := [], errors := []
    warnings := [] }

/- The mutable pieces of the results dict touched by the annotation
loop, qa_checker.py lines 87 to 107. -/
structure AnnState where
  errors : List String
  invalid_bboxes : List String
  class_counts : List (String × ℕ)
deriving DecidableEq

/- The id rendered into a missing-field message, ann.get with default. -/
def annIdStr (a : QAAnn) : String :=
  match a.id with
  | some i => toString i
  | none => "unknown"

/- The required-field loop of qa_checker.py lines 90 to 94.  The
continue statement in the Python source continues the inner field loop,
so the messages are recorded and execution falls through to the bbox
access regardless. -/
def missingFieldMsgs (a : QAAnn) : List String :=
  (if a.id.isNone then [("Annotation ") ++ annIdStr a ++ (" missing id")] else []) ++
  (if a.image_id.isNone then [("Annotation ") ++ annIdStr a ++ (" missing image_id")] else []) ++
  (if a.category_id.isNone then [("Annotation ") ++ annIdStr a ++ (" missing category_id")] else []) ++
  (if a.bbox.isNone then [("Annotation ") ++ annIdStr a ++ (" missing bbox")] else [])

/- One iteration of the annotation loop, qa_checker.py lines 88 to 107.
A KeyError raised by a direct subscript (ann[bbox], ann[id] inside a
message, ann[category_id]) is modelled as Except.error carrying the
KeyError argument and the state accumulated so far, because the Python
results dict is mutated in place before the exception escapes. -/
def annStep (catMap : List (ℤ × String)) (s : AnnState) (a : QAAnn) :
    Except (String × AnnState) AnnState :=
  let s1 : AnnState := { s with errors := s.errors ++ missingFieldMsgs a }
  match a.bbox with
  | none => Except.error (("bbox"), s1)
  | some bbox =>
    let invalid? : Except (String × AnnState) (List String) :=
      if bbox.length ≠ 4 then
        match a.id with
        | none => Except.error (("id"), s1)
        | some i =>
          Except.ok [("Annotation ") ++ toString i ++ (": bbox must have 4 values")]
      else if bbox.any (fun v => decide (v < 0)) then
        match a.id with
        | none => Except.error (("id"), s1)
        | some i =>
          Except.ok [("Annotation ") ++ toString i ++ (": negative bbox values")]
      else if bbox.getD 2 0 ≤ 0 ∨ bbox.getD 3 0 ≤ 0 then
        match a.id with
        | none => Except.error (("id"), s1)
        | some i =>
          Except.ok [("Annotation ") ++ toString i ++ (": zero or negative width/height")]
      else Except.ok []
    match invalid? with
    | Except.error e => Except.error e
    | Except.ok msgs =>
      let s2 := { s1 with invalid_bboxes := s1.invalid_bboxes ++ msgs }
      match a.category_id with
      | none => Except.error (("category_id"), s2)
      | some cid =>
        let name := (dictGet? catMap cid).getD ("unknown")
        Except.ok { s2 with class_counts := counterAdd s2.class_counts name }

/- The annotation loop; an escaping exception stops it and hands back
the state reached so far together with the KeyError argument. -/
def foldAnns (catMap : List (ℤ × String)) :
    AnnState → List QAAnn → AnnState × Option String
  | s, [] => (s, none)
  | s, a :: rest =>
    match annStep catMap s a with
    | Except.ok s2 => foldAnns catMap s2 rest
    | Except.error (msg, s2) => (s2, some msg)

/- Largest count of a distribution, max over the dict values. -/
def maxCount : List ℕ → ℕ
  | [] => 0
  | c :: cs => cs.foldl max c

/- Smallest count of a distribution, min over the dict values. -/
def minCount : List ℕ → ℕ
  | [] => 0
  | c :: cs => cs.foldl min c

/- The class-imbalance check of qa_checker.py lines 112 to 116: only a
non-empty distribution is examined, and the warning fires exactly when
max_count > min_count * 10 with a strict comparison. -/
def imbalanceWarnings : List (String × ℕ) → List String
  | [] => []
  | c :: cs =>
    let vals := (c :: cs).map (fun p => p.2)
    if maxCount vals > minCount vals * 10 then
      [("Significant class imbalance detected: ") ++ toString (maxCount vals)
        ++ (":") ++ toString (minCount vals)]
    else []

/- AnnotationQAChecker.validate_image_annotations on a parsed dataset.
The required-key loop returns at the first missing key with the single
error message.  When the annotation loop raises, the blanket except
clause appends the failure message and the function returns with the
class distribution still at its initial empty value and with no
warnings, because both are only written after the loop. -/
def validate_image_annotations (d : QADataset) (fileExists : String → Bool) :
    ImageQAResult :=
  match d.images, d.annotations, d.categories with
  | none, _, _ =>
    { emptyImageQA with errors := [("Missing required key: images")] }
  | some _, none, _ =>
    { emptyImageQA with errors := [("Missing required key: annotations")] }
  | some _, some _, none =>
    { emptyImageQA with errors := [("Missing required key: categories")] }
  | some images, some anns, some cats =>
    let catMap := cats.foldl (fun m c => dictInsert c.id c.name m)
      ([] : List (ℤ × String))
    let missing := (images.filter (fun i => !(fileExists i.file_name))).map
      (fun i => i.file_name)
    match foldAnns catMap { errors := [], invalid_bboxes := [], class_counts := [] } anns with
    | (st, some msg) =>
      { total_images := images.length
        total_annotations := anns.length
        missing_images := missing
        invalid_bboxes := st.invalid_bboxes
        class_distribution := []
        errors := st.errors ++ [("Failed to validate image annotations: ") ++ msg]
        warnings := [] }
    | (st, none) =>
      { total_images := images.length
        total_annotations := anns.length
        missing_images := missing
        invalid_bboxes := st.invalid_bboxes
        class_distribution := st.class_counts
        errors := st.errors
        warnings := imbalanceWarnings st.class_counts }

/- A text sample as seen by validate_text_annotations: a none field
models an absent key or a null value, both of which item.get turns into
a falsy value. -/
structure TextRecord where
  text : Option String
  label : Option String
deriving DecidableEq

/- The length statistics dict of qa_checker.py lines 183 to 188. -/
structure LengthStats where
  min : ℕ
  max : ℕ
  mean : ℚ
  median : ℕ
deriving DecidableEq

/- min, max, mean and median over a non-empty length list, exactly the
expressions of qa_checker.py lines 183 to 188 (and identically lines
252 to 257): the median is the element of the ascending sorted list at
index length / 2 with integer division. -/
def lengthStatsOf : List ℕ → Option LengthStats
  | [] => none
  | x :: xs =>
    some
      { min := xs.foldl min x
        max := xs.foldl max x
        mean := (((x :: xs).map (fun n => (n : ℚ))).sum) / ((x :: xs).length : ℚ)
        median := (List.insertionSort (fun a b => a ≤ b) (x :: xs)).getD
          ((x :: xs).length / 2) 0 }

/- The running counters of the text loop, qa_checker.py lines 159 to
177. -/
structure TextAcc where
  missing_text : ℕ
  empty_text : ℕ
  missing_labels : ℕ
  text_lengths : List ℕ
  label_counts : List (String × ℕ)
deriving DecidableEq

/- One iteration of the text loop, qa_checker.py lines 162 to 177:
a falsy text (absent key, null, or empty string) counts as missing; a
non-empty string that strips to nothing counts as empty_text; otherwise
its length is collected.  A falsy label counts as missing, otherwise
the label distribution is updated. -/
def textStep (acc : TextAcc) (item : TextRecord) : TextAcc :=
  let acc1 :=
    match item.text with
    | none => { acc with missing_text := acc.missing_text + 1 }
    | some s =>
      if s = "" then { acc with missing_text := acc.missing_text + 1 }
      else if s.toList.all (fun c => c.isWhitespace) then
        { acc with empty_text := acc.empty_text + 1 }
      else { acc with text_lengths := acc.text_lengths ++ [s.length] }
  match item.label with
  | none => { acc1 with missing_labels := acc1.missing_labels + 1 }
  | some l =>
    if l = "" then { acc1 with missing_labels := acc1.missing_labels + 1 }
    else { acc1 with label_counts := counterAdd acc1.label_counts l }

def textAccOf (data : List TextRecord) : TextAcc :=
  data.foldl textStep
    { missing_text := 0, empty_text := 0, missing_labels := 0
      text_lengths := [], label_counts := [] }

/- The length list collected by the text loop. -/
def textLengths (data : List TextRecord) : List ℕ :=
  (textAccOf data).text_lengths

/- The results dict of validate_text_annotations. -/
structure TextQAResult where
  total_samples : ℕ
  missing_text : ℕ
  missing_labels : ℕ
  empty_text : ℕ
  label_distribution : List (String × ℕ)
  text_length_stats : Option LengthStats
  errors : List String
  warnings : List String
deriving DecidableEq

/- AnnotationQAChecker.validate_text_annotations on a parsed record
list.  The thresholds of lines 191 and 194 are strict comparisons
against total * 0.1 and total * 0.05. -/
def validate_text_annotations (data : List TextRecord) : TextQAResult :=
  let acc := textAccOf data
  let total := data.length
  let w1 :=
    if (acc.missing_text : ℚ) > (total : ℚ) * (1 / 10) then
      [("High percentage of missing text: ") ++ toString acc.missing_text
        ++ ("/") ++ toString total]
    else []
  let w2 :=
    if (acc.missing_labels : ℚ) > (total : ℚ) * (1 / 20) then
      [("High percentage of missing labels: ") ++ toString acc.missing_labels
        ++ ("/") ++ toString total]
    else []
  { total_samples := total
    missing_text := acc.missing_text
    missing_labels := acc.missing_labels
    empty_text := acc.empty_text
    label_distribution := acc.label_counts
    text_length_stats := lengthStatsOf acc.text_lengths
    errors := []
    warnings := w1 ++ w2 }

/- An audio sample as seen by validate_audio_annotations. -/
structure AudioRecord where
  audio_file : Option String
  transcription : Option String
  duration : Option ℚ
deriving DecidableEq

/- The running counters of the audio loop, qa_checker.py lines 227 to
248. -/
structure AudioAcc where
  missing_audio_files : List String
  missing_transcriptions : ℕ
  transcription_lengths : List ℕ
  durations : List ℚ
deriving DecidableEq

/- One iteration of the audio loop, qa_checker.py lines 230 to 248:
a truthy audio_file that does not exist is collected; a transcription
that is falsy or strips to nothing counts as missing, otherwise its
length is collected; only truthy positive durations are collected. -/
def audioStep (fileExists : String → Bool) (acc : AudioAcc)
    (row : AudioRecord) : AudioAcc :=
  let acc1 :=
    match row.audio_file with
    | none => acc
    | some f =>
      if f = "" then acc
      else if fileExists f then acc
      else { acc with missing_audio_files := acc.missing_audio_files ++ [f] }
  let acc2 :=
    match row.transcription with
    | none =>
      { acc1 with missing_transcriptions := acc1.missing_transcriptions + 1 }
    | some t =>
      if t = "" ∨ t.toList.all (fun c => c.isWhitespace) then
        { acc1 with missing_transcriptions := acc1.missing_transcriptions + 1 }
      else { acc1 with transcription_lengths := acc1.transcription_lengths ++ [t.length] }
  match row.duration with
  | none => acc2
  | some dur =>
    if dur ≠ 0 ∧ dur > 0 then { acc2 with durations := acc2.durations ++ [dur] }
    else acc2

def audioAccOf (fileExists : String → Bool) (recs : List AudioRecord) :
    AudioAcc :=
  recs.foldl (audioStep fileExists)
    { missing_audio_files := [], missing_transcriptions := 0
      transcription_lengths := [], durations := [] }

/- The transcription length list collected by the audio loop. -/
def transcriptionLengths (fileExists : String → Bool)
    (recs : List AudioRecord) : List ℕ :=
  (audioAccOf fileExists recs).transcription_lengths

/- The duration statistics dict of qa_checker.py lines 259 to 265. -/
structure DurationStats where
  min : ℚ
  max : ℚ
  mean : ℚ
  total : ℚ
deriving DecidableEq

def durationStatsOf : List ℚ → Option DurationStats
  | [] => none
  | x :: xs =>
    some
      { min := xs.foldl min x
        max := xs.foldl max x
        mean := ((x :: xs).sum) / ((x :: xs).length : ℚ)
        total := (x :: xs).sum }

/- The results dict of validate_audio_annotations. -/
structure AudioQAResult where
  total_samples : ℕ
  missing_audio_files : List String
  missing_transcriptions : ℕ
  transcription_length_stats : Option LengthStats
  duration_stats : Option DurationStats
  errors : List String
  warnings : List String
deriving DecidableEq

/- AnnotationQAChecker.validate_audio_annotations on a parsed record
list; the missing-file warning threshold of line 268 is strict against
total * 0.05. -/
def validate_audio_annotations (recs : List AudioRecord)
    (fileExists : String → Bool) : AudioQAResult :=
  let acc := audioAccOf fileExists recs
  let total := recs.length
  let w :=
    if (acc.missing_audio_files.length : ℚ) > (total : ℚ) * (1 / 20) then
      [("High percentage of missing audio files: ")
        ++ toString acc.missing_audio_files.length ++ ("/") ++ toString total]
    else []
  { total_samples := total
    missing_audio_files := acc.missing_audio_files
    missing_transcriptions := acc.missing_transcriptions
    transcription_length_stats := lengthStatsOf acc.transcription_lengths
    duration_stats := durationStatsOf acc.durations
    errors := []
    warnings := w }

/- Concrete dataset with one out-of-range box on a 100 by 100 image. -/
def ds2noclamp : CocoDataset :=
  { images := some [{ id := 1, file_name := "img", width := some 100, height := some 100 }]
    annotations := some [{ id := 1, image_id := 1, category_id := 1, bbox := ⟨150, 0, 100, 10⟩ }]
    categories := some [{ id := 1, name := "c" }] }

/- Concrete dataset whose images key is missing while the other two
required keys are present. -/
def ds3cex : CocoDataset :=
  { images := none
    annotations := some [{ id := 1, image_id := 1, category_id := 1, bbox := ⟨0, 0, 1, 1⟩ }]
    categories := some [{ id := 1, name := "cat" }] }

/- Concrete dataset with a negative recorded width. -/
def ds4cex : CocoDataset :=
  { images := some [{ id := 1, file_name := "imgA", width := some (-100), height := some 100 }]
    annotations := some [{ id := 1, image_id := 1, category_id := 1, bbox := ⟨10, 20, 30, 40⟩ }]
    categories := some [{ id := 1, name := "cat" }] }

/- Concrete dataset with one zero-width image and one valid sibling. -/
def ds4w : CocoDataset :=
  { images := some
      [{ id := 1, file_name := "bad", width := some 0, height := some 100 },
       { id := 2, file_name := "good", width := some 100, height := some 100 }]
    annotations := some [{ id := 1, image_id := 2, category_id := 1, bbox := ⟨10, 20, 30, 40⟩ }]
    categories := some [{ id := 1, name := "cat" }] }

/- Concrete validator dataset: the first record lacks the bbox key, the
second is fully valid. -/
def qads5 : QADataset :=
  { images := some []
    annotations := some
      [{ id := some 1, image_id := some 1, category_id := some 1, bbox := none },
       { id := some 2, image_id := some 1, category_id := some 1, bbox := some [0, 0, 10, 10] }]
    categories := some [{ id := 1, name := "cat" }] }

/- Concrete validator dataset whose class distribution is A 100, B 5. -/
def ds6a : QADataset :=
  { images := some []
    annotations := some
      (List.replicate 100
        ({ id := some 1, image_id := some 1, category_id := some 1, bbox := some [0, 0, 1, 1] } : QAAnn)
        ++ List.replicate 5
        ({ id := some 2, image_id := some 1, category_id := some 2, bbox := some [0, 0, 1, 1] } : QAAnn))
    categories := some [{ id := 1, name := "A" }, { id := 2, name := "B" }] }

/- Concrete validator dataset whose class distribution is A 50, B 5. -/
def ds6b : QADataset :=
  { images := some []
    annotations := some
      (List.replicate 50
        ({ id := some 1, image_id := some 1, category_id := some 1, bbox := some [0, 0, 1, 1] } : QAAnn)
        ++ List.replicate 5
        ({ id := some 2, image_id := some 1, category_id := some 2, bbox := some [0, 0, 1, 1] } : QAAnn))
    categories := some [{ id := 1, name := "A" }, { id := 2, name := "B" }] }

/- Concrete text collection of 20 records: three with empty-string text,
one with a missing label, the rest fully populated. -/
def d7recs : List TextRecord :=
  List.replicate 3 ({ text := some (""), label := some ("L") } : TextRecord)
    ++ [{ text := some ("t"), label := none }]
    ++ List.replicate 16 ({ text := some ("t"), label := some ("L") } : TextRecord)

/- Concrete text collection whose collected lengths are 1, 2, 3, 4. -/
def d8cex : List TextRecord :=
  [{ text := some ("a"), label := some ("L") },
   { text := some ("bb"), label := some ("L") },
   { text := some ("ccc"), label := some ("L") },
   { text := some ("dddd"), label := some ("L") }]

/- Concrete audio collection whose transcription lengths are 1 and 2. -/
def a8recs : List AudioRecord :=
  [{ audio_file := none, transcription := some ("a"), duration := none },
   { audio_file := none, transcription := some ("bb"), duration := none }]

/- Concrete YOLO input: one file, matched image 100 by 100, one line
whose class token 99 is outside the loaded class list. -/
def files9 : List YoloFile :=
  [{ stem := "x", image := some (("x.jpg"), 100, 100)
     lines := [{ classId := 99, fields := [1/2, 1/2, 1/10, 1/10] }] }]

def cls9 : List String := [("a"), ("b"), ("c")]

/- Concrete YOLO input with an in-range class token. -/
def files9w : List YoloFile :=
  [{ stem := "x", image := some (("x.jpg"), 10, 10)
     lines := [{ classId := 1, fields := [1/2, 1/2, 1/5, 1/5] }] }]

def cls9w : List String := [("a"), ("b")]

/- Concrete dataset whose second category is literally named unknown
and whose only annotation references a category id that is absent. -/
def ds10cex : CocoDataset :=
  { images := some [{ id := 1, file_name := "img", width := some 100, height := some 100 }]
    annotations := some [{ id := 1, image_id := 1, category_id := 5, bbox := ⟨10, 20, 30, 40⟩ }]
    categories := some [{ id := 1, name := "cat" }, { id := 2, name := "unknown" }] }

/- Concrete dataset with ordinary category names and an annotation
referencing an absent category id. -/
def ds10w : CocoDataset :=
  { images := some [{ id := 1, file_name := "img", width := some 10, height := some 10 }]
    annotations := some [{ id := 1, image_id := 1, category_id := 7, bbox := ⟨0, 0, 1, 1⟩ }]
    categories := some [{ id := 1, name := "cat" }, { id := 2, name := "dog" }] }

/-- Claim C1: for every bounding box with positive width and height and
positive image dimensions, the forward transform of coco_to_yolo
followed by the inverse transform of yolo_to_coco returns the original
box, in particular every component is within the tolerance 1e-6.  The
arithmetic is modelled exactly over the rationals, so the round trip is
exact and the tolerance bound follows. -/
theorem c1_roundtrip (b : Bbox) (W H : ℚ) (hw : 0 < b.w) (hh : 0 < b.h)
    (hW : 0 < W) (hH : 0 < H) :
    to_absolute_topleft (to_normalized_center b W H) W H = b ∧
    |(to_absolute_topleft (to_normalized_center b W H) W H).x - b.x| ≤ 1 / 1000000 ∧
    |(to_absolute_topleft (to_normalized_center b W H) W H).y - b.y| ≤ 1 / 1000000 ∧
    |(to_absolute_topleft (to_normalized_center b W H) W H).w - b.w| ≤ 1 / 1000000 ∧
    |(to_absolute_topleft (to_normalized_center b W H) W H).h - b.h| ≤ 1 / 1000000 := by
  have hW0 : W ≠ 0 := ne_of_gt hW
  have hH0 : H ≠ 0 := ne_of_gt hH
  have heq : to_absolute_topleft (to_normalized_center b W H) W H = b := by
    obtain ⟨x, y, w, h⟩ := b
    simp only [to_normalized_center, to_absolute_topleft, Bbox.mk.injEq]
    refine ⟨?_, ?_, ?_, ?_⟩ <;> field_simp <;> ring
  refine ⟨heq, ?_, ?_, ?_, ?_⟩ <;> rw [heq] <;> simp

/-- Witness for claim C1 at the box (10, 20, 30, 40) on a 100 by 100
image. -/
theorem c1_roundtrip_witness :
    to_absolute_topleft (to_normalized_center ⟨10, 20, 30, 40⟩ 100 100) 100 100 = ⟨10, 20, 30, 40⟩ ∧
    |(to_absolute_topleft (to_normalized_center ⟨10, 20, 30, 40⟩ 100 100) 100 100).x - (10 : ℚ)| ≤ 1 / 1000000 ∧
    |(to_absolute_topleft (to_normalized_center ⟨10, 20, 30, 40⟩ 100 100) 100 100).y - (20 : ℚ)| ≤ 1 / 1000000 ∧
    |(to_absolute_topleft (to_normalized_center ⟨10, 20, 30, 40⟩ 100 100) 100 100).w - (30 : ℚ)| ≤ 1 / 1000000 ∧
    |(to_absolute_topleft (to_normalized_center ⟨10, 20, 30, 40⟩ 100 100) 100 100).h - (40 : ℚ)| ≤ 1 / 1000000 :=
  c1_roundtrip ⟨10, 20, 30, 40⟩ 100 100 (by norm_num [Bbox.w]) (by norm_num [Bbox.h])
    (by norm_num) (by norm_num)

/-- Claim C2: the forward transform computes x_center = (x + w/2)/W,
y_center = (y + h/2)/H, norm_w = w/W, norm_h = h/H; on the bbox
(10, 20, 30, 40) with a 100 by 100 image it yields exactly
(0.25, 0.40, 0.30, 0.40); and no clamping is applied, as shown by a box
whose normalized x_center is 2, which passes through the whole converter
unchanged. -/
theorem c2_forward_transform :
    (∀ (b : Bbox) (W H : ℚ), to_normalized_center b W H =
      { xc := (b.x + b.w / 2) / W, yc := (b.y + b.h / 2) / H
        w := b.w / W, h := b.h / H }) ∧
    to_normalized_center ⟨10, 20, 30, 40⟩ 100 100 = ⟨1/4, 2/5, 3/10, 2/5⟩ ∧
    to_normalized_center ⟨150, 0, 100, 10⟩ 100 100 = ⟨2, 1/20, 1, 1/10⟩ ∧
    1 < (to_normalized_center ⟨150, 0, 100, 10⟩ 100 100).xc ∧
    (coco_to_yolo ds2noclamp none none).files = [(("img"), [⟨0, 2, 1/20, 1, 1/10⟩])] :=
  ⟨fun _ _ _ => rfl, by with_unfolding_all decide, by with_unfolding_all decide,
   by with_unfolding_all decide, by with_unfolding_all decide⟩

/-- Claim C3 counterexample: on a dataset whose images key is missing
(annotations and categories present), coco_to_yolo does not fail: the
call succeeds (the code returns True), emits no per-image file and no
warning, and still emits the classes file, contradicting the claim that
the conversion aborts with a MissingRequiredKey error. -/
theorem c3_counterexample :
    (coco_to_yolo ds3cex none none).success = true ∧
    (coco_to_yolo ds3cex none none).files = [] ∧
    (coco_to_yolo ds3cex none none).warnings = [] ∧
    (coco_to_yolo ds3cex none none).classes = [("cat")] := by
  decide

/-- Claim C3 amended: coco_to_yolo performs no required-key validation:
a missing top-level key behaves exactly as if an empty list had been
supplied for that key (proved for each of the three keys), so the
conversion succeeds with no error; with the images key missing it emits
no per-image file and no warning.  The required-key check that the spec
describes lives in validate_image_annotations, which records a
missing-key error for the first absent key in the order images,
annotations, categories and returns immediately with otherwise empty
results (proved for all three keys). -/
theorem c3_amended :
    (∀ (d : CocoDataset) (dW dH : Option ℤ),
      (d.images = none ∨ d.annotations = none ∨ d.categories = none) →
      (coco_to_yolo d dW dH).success = true) ∧
    (∀ (d : CocoDataset) (dW dH : Option ℤ),
      coco_to_yolo { d with images := none } dW dH =
        coco_to_yolo { d with images := some [] } dW dH ∧
      coco_to_yolo { d with annotations := none } dW dH =
        coco_to_yolo { d with annotations := some [] } dW dH ∧
      coco_to_yolo { d with categories := none } dW dH =
        coco_to_yolo { d with categories := some [] } dW dH) ∧
    (∀ (d : CocoDataset) (dW dH : Option ℤ), d.images = none →
      (coco_to_yolo d dW dH).files = [] ∧ (coco_to_yolo d dW dH).warnings = []) ∧
    (∀ (qd : QADataset) (fx : String → Bool),
      (qd.images = none →
        validate_image_annotations qd fx =
          { emptyImageQA with errors := [("Missing required key: images")] }) ∧
      (∀ qi : List QAImage, qd.images = some qi → qd.annotations = none →
        validate_image_annotations qd fx =
          { emptyImageQA with errors := [("Missing required key: annotations")] }) ∧
      (∀ (qi : List QAImage) (qa : List QAAnn),
        qd.images = some qi → qd.annotations = some qa → qd.categories = none →
        validate_image_annotations qd fx =
          { emptyImageQA with errors := [("Missing required key: categories")] })) := by
  refine ⟨fun d dW dH _ => rfl, fun d dW dH => ⟨rfl, rfl, rfl⟩, ?_, ?_⟩
  · intro d dW dH h
    constructor <;> simp [coco_to_yolo, h]
  · intro qd fx
    obtain ⟨qi0, qa0, qc0⟩ := qd
    refine ⟨?_, ?_, ?_⟩
    · intro h
      change qi0 = none at h
      subst h
      rfl
    · intro qi h1 h2
      change qi0 = some qi at h1
      change qa0 = none at h2
      subst h1
      subst h2
      rfl
    · intro qi qa h1 h2 h3
      change qi0 = some qi at h1
      change qa0 = some qa at h2
      change qc0 = none at h3
      subst h1
      subst h2
      subst h3
      rfl

/-- Witness for claim C3 amended: the missing-images dataset succeeds
with empty output and behaves as with an explicit empty images list,
and the validator reports the first missing key for each of the three
keys. -/
theorem c3_amended_witness :
    (coco_to_yolo ds3cex none none).success = true ∧
    coco_to_yolo { ds3cex with images := none } none none =
      coco_to_yolo { ds3cex with images := some [] } none none ∧
    (coco_to_yolo ds3cex none none).files = [] ∧
    (coco_to_yolo ds3cex none none).warnings = [] ∧
    validate_image_annotations ⟨none, some [], some []⟩ (fun _ => true) =
      { emptyImageQA with errors := [("Missing required key: images")] } ∧
    validate_image_annotations ⟨some [], none, some []⟩ (fun _ => true) =
      { emptyImageQA with errors := [("Missing required key: annotations")] } ∧
    validate_image_annotations ⟨some [], some [], none⟩ (fun _ => true) =
      { emptyImageQA with errors := [("Missing required key: categories")] } :=
  ⟨c3_amended.1 ds3cex none none (Or.inl rfl),
   (c3_amended.2.1 ds3cex none none).1,
   (c3_amended.2.2.1 ds3cex none none rfl).1,
   (c3_amended.2.2.1 ds3cex none none rfl).2,
   (c3_amended.2.2.2 ⟨none, some [], some []⟩ (fun _ => true)).1 rfl,
   (c3_amended.2.2.2 ⟨some [], none, some []⟩ (fun _ => true)).2.1 [] rfl rfl,
   (c3_amended.2.2.2 ⟨some [], some [], none⟩ (fun _ => true)).2.2 [] [] rfl rfl rfl⟩

/-- Claim C4 counterexample: an image whose recorded width is the
negative integer -100 is not skipped: the truthiness test of the code
only catches an absent or zero dimension, so the image converts (one
line, with negative normalized values) and no warning is recorded,
contradicting the claim for negative resolved dimensions. -/
theorem c4_counterexample :
    (coco_to_yolo ds4cex none none).files = [(("imgA"), [⟨0, -1/4, 2/5, -3/10, 2/5⟩])] ∧
    (coco_to_yolo ds4cex none none).warnings = [] ∧
    (coco_to_yolo ds4cex none none).success = true := by
  with_unfolding_all decide

theorem emitFileFor_skip (cats : List (ℤ × String)) (c2i : List (String × ℕ))
    (anns : List CocoAnn) (dW dH : Option ℤ) (img : CocoImage)
    (h : (dimFalsy (resolveDim img.width dW) || dimFalsy (resolveDim img.height dH)) = true) :
    emitFileFor cats c2i anns dW dH img = none := by
  cases hw : resolveDim img.width dW with
  | none => simp [emitFileFor, hw]
  | some W =>
    cases hh : resolveDim img.height dH with
    | none => simp [emitFileFor, hw, hh]
    | some H =>
      rw [hw, hh] at h
      simp only [dimFalsy, Bool.or_eq_true, beq_iff_eq] at h
      simp [emitFileFor, hw, hh, h]

theorem emitFileFor_emit (cats : List (ℤ × String)) (c2i : List (String × ℕ))
    (anns : List CocoAnn) (dW dH : Option ℤ) (img : CocoImage) (W H : ℤ)
    (hw : resolveDim img.width dW = some W) (hh : resolveDim img.height dH = some H)
    (hW : W ≠ 0) (hH : H ≠ 0) :
    emitFileFor cats c2i anns dW dH img =
      some (img.file_name,
        (anns.filter (fun a => a.image_id == img.id)).map (yoloLineFor cats c2i W H)) := by
  simp [emitFileFor, hw, hh, hW, hH]

/-- Claim C4 amended: a per-image dimension failure is never fatal (the
call always succeeds); an image whose resolved width or height is
absent or zero is skipped, contributing no line file and one missing
dimensions warning; negative resolved dimensions pass the truthiness
test unnoticed, and any image whose two dimensions resolve to non-zero
integers converts, its file appearing in the output with one line per
annotation of the image. -/
theorem c4_amended :
    (∀ (d : CocoDataset) (dW dH : Option ℤ), (coco_to_yolo d dW dH).success = true) ∧
    (∀ (d : CocoDataset) (dW dH : Option ℤ) (img : CocoImage),
      img ∈ (d.images).getD [] →
      (dimFalsy (resolveDim img.width dW) || dimFalsy (resolveDim img.height dH)) = true →
      emitFileFor (convCats d) (convCatToId d) ((d.annotations).getD []) dW dH img = none ∧
      (("Missing dimensions for ") ++ img.file_name) ∈ (coco_to_yolo d dW dH).warnings) ∧
    (∀ (d : CocoDataset) (dW dH : Option ℤ) (img : CocoImage) (W H : ℤ),
      img ∈ (d.images).getD [] →
      resolveDim img.width dW = some W → resolveDim img.height dH = some H →
      W ≠ 0 → H ≠ 0 →
      (img.file_name,
        (((d.annotations).getD []).filter (fun a => a.image_id == img.id)).map
          (yoloLineFor (convCats d) (convCatToId d) W H)) ∈ (coco_to_yolo d dW dH).files) := by
  refine ⟨fun _ _ _ => rfl, ?_, ?_⟩
  · intro d dW dH img hmem hfalsy
    have hnone := emitFileFor_skip (convCats d) (convCatToId d)
      ((d.annotations).getD []) dW dH img hfalsy
    refine ⟨hnone, ?_⟩
    simp only [coco_to_yolo, List.mem_filterMap]
    exact ⟨img, hmem, by simp [hnone]⟩
  · intro d dW dH img W H hmem hw hh hW hH
    have hsome := emitFileFor_emit (convCats d) (convCatToId d)
      ((d.annotations).getD []) dW dH img W H hw hh hW hH
    simp only [coco_to_yolo, List.mem_filterMap]
    exact ⟨img, hmem, hsome⟩

/-- Witness for claim C4 amended on a dataset with one zero-width image
and one valid sibling: the zero-width image yields a warning and the
sibling converts. -/
theorem c4_amended_witness :
    (coco_to_yolo ds4w none none).success = true ∧
    (("Missing dimensions for ") ++ ("bad")) ∈ (coco_to_yolo ds4w none none).warnings ∧
    ((("good") : String),
      (((ds4w.annotations).getD []).filter
        (fun a => a.image_id == CocoImage.id ⟨2, ("good"), some 100, some 100⟩)).map
        (yoloLineFor (convCats ds4w) (convCatToId ds4w) 100 100)) ∈
      (coco_to_yolo ds4w none none).files :=
  ⟨c4_amended.1 ds4w none none,
   (c4_amended.2.1 ds4w none none ⟨1, ("bad"), some 0, some 100⟩
      (List.Mem.head _) rfl).2,
   c4_amended.2.2 ds4w none none ⟨2, ("good"), some 100, some 100⟩ 100 100
      (List.Mem.tail _ (List.Mem.head _)) rfl rfl (by decide) (by decide)⟩

/-- Claim C5 code-bug evaluation: on a dataset whose first annotation
lacks the bbox key and whose second annotation is fully valid, the
validator records the missing-field message, then the direct bbox
subscript raises a KeyError that the blanket except clause turns into a
failure error, aborting the loop: the valid second annotation is never
processed and the class distribution stays empty, contradicting the
claim that every remaining annotation is still counted. -/
theorem c5_failing_eval :
    validate_image_annotations qads5 (fun _ => true) =
      { total_images := 0, total_annotations := 2, missing_images := []
        invalid_bboxes := [], class_distribution := []
        errors := [("Annotation 1 missing bbox"),
                   ("Failed to validate image annotations: bbox")]
        warnings := [] } := by
  with_unfolding_all decide

set_option maxRecDepth 100000 in
/-- Claim C6: the class-imbalance warning of validate_image_annotations
fires exactly when the largest count strictly exceeds ten times the
smallest count; the distribution A 100, B 5 produces the warning and
the exact boundary distribution A 50, B 5 produces none. -/
theorem c6_imbalance :
    (∀ (c : String × ℕ) (cs : List (String × ℕ)),
      imbalanceWarnings (c :: cs) ≠ [] ↔
        maxCount ((c :: cs).map (fun p => p.2)) >
          minCount ((c :: cs).map (fun p => p.2)) * 10) ∧
    (validate_image_annotations ds6a (fun _ => true)).class_distribution = [(("A"), 100), (("B"), 5)] ∧
    (validate_image_annotations ds6a (fun _ => true)).warnings.length = 1 ∧
    (validate_image_annotations ds6b (fun _ => true)).class_distribution = [(("A"), 50), (("B"), 5)] ∧
    (validate_image_annotations ds6b (fun _ => true)).warnings = [] := by
  refine ⟨?_, ?_, ?_, ?_, ?_⟩
  · intro c cs
    by_cases h : maxCount ((c :: cs).map (fun p => p.2)) >
        minCount ((c :: cs).map (fun p => p.2)) * 10 <;>
      simp [imbalanceWarnings, h]
  · with_unfolding_all decide
  · with_unfolding_all decide
  · with_unfolding_all decide
  · with_unfolding_all decide

/-- Claim C7: on 20 records with three empty-string texts and one
missing label, the text validator reports missing_text 3 and
missing_labels 1, fires only the missing-text warning (3/20 exceeds the
strict 10 percent threshold while 1/20 sits exactly on the 5 percent
boundary), and tracks missing text and blank (whitespace-only) text in
two distinct counters. -/
theorem c7_text_diagnostics :
    (validate_text_annotations d7recs).total_samples = 20 ∧
    (validate_text_annotations d7recs).missing_text = 3 ∧
    (validate_text_annotations d7recs).missing_labels = 1 ∧
    (validate_text_annotations d7recs).empty_text = 0 ∧
    (validate_text_annotations d7recs).warnings = [("High percentage of missing text: 3/20")] ∧
    (validate_text_annotations [{ text := some (" "), label := some ("L") }]).empty_text = 1 ∧
    (validate_text_annotations [{ text := some (" "), label := some ("L") }]).missing_text = 0 := by
  with_unfolding_all decide

/-- Claim C8 counterexample: on four records with text lengths 1, 2, 3
and 4, the reported median is 3, the element at the upper-middle index
of the sorted lengths, not the element 2 at the lower-middle index that
the claim describes. -/
theorem c8_counterexample :
    Option.map LengthStats.median ((validate_text_annotations d8cex).text_length_stats) = some 3 ∧
    ((Option.map LengthStats.median ((validate_text_annotations d8cex).text_length_stats) ==
      some ((List.insertionSort (fun a b => a ≤ b) (textLengths d8cex)).getD
        ((textLengths d8cex).length / 2 - 1) 0)) = false) := by
  with_unfolding_all decide

theorem lengthStatsOf_median (l : List ℕ) (h : l ≠ []) :
    Option.map LengthStats.median (lengthStatsOf l) =
      some ((List.insertionSort (fun a b => a ≤ b) l).getD (l.length / 2) 0) := by
  cases l with
  | nil => exact absurd rfl h
  | cons x xs => rfl

/-- Claim C8 amended: for every non-empty collected length sequence the
reported median is the element at index n / 2 (integer division) of the
ascending sorted sequence, the upper-middle element for even n; the
same rule holds for the transcription length statistics of the audio
validator. -/
theorem c8_amended :
    (∀ data : List TextRecord, textLengths data ≠ [] →
      Option.map LengthStats.median ((validate_text_annotations data).text_length_stats) =
        some ((List.insertionSort (fun a b => a ≤ b) (textLengths data)).getD
          ((textLengths data).length / 2) 0)) ∧
    (∀ (fx : String → Bool) (recs : List AudioRecord), transcriptionLengths fx recs ≠ [] →
      Option.map LengthStats.median
          ((validate_audio_annotations recs fx).transcription_length_stats) =
        some ((List.insertionSort (fun a b => a ≤ b) (transcriptionLengths fx recs)).getD
          ((transcriptionLengths fx recs).length / 2) 0)) := by
  constructor
  · intro data h
    have hs : (validate_text_annotations data).text_length_stats =
        lengthStatsOf (textLengths data) := rfl
    rw [hs, lengthStatsOf_median _ h]
  · intro fx recs h
    have hs : (validate_audio_annotations recs fx).transcription_length_stats =
        lengthStatsOf (transcriptionLengths fx recs) := rfl
    rw [hs, lengthStatsOf_median _ h]

/-- Witness for claim C8 amended on concrete text and audio inputs. -/
theorem c8_amended_witness :
    Option.map LengthStats.median ((validate_text_annotations d8cex).text_length_stats) =
      some ((List.insertionSort (fun a b => a ≤ b) (textLengths d8cex)).getD
        ((textLengths d8cex).length / 2) 0) ∧
    Option.map LengthStats.median
        ((validate_audio_annotations a8recs (fun _ => true)).transcription_length_stats) =
      some ((List.insertionSort (fun a b => a ≤ b) (transcriptionLengths (fun _ => true) a8recs)).getD
        ((transcriptionLengths (fun _ => true) a8recs).length / 2) 0) :=
  ⟨c8_amended.1 d8cex (by with_unfolding_all decide),
   c8_amended.2 (fun _ => true) a8recs (by with_unfolding_all decide)⟩

theorem lineStep_fold_mem (W H : ℤ) (iid : ℕ) :
    ∀ (lines : List YoloLine) (a : List OutCocoAnn × ℕ) (ann : OutCocoAnn),
      ann ∈ (lines.foldl (lineStep W H iid) a).1 → ann ∈ a.1 ∨ ann.image_id = iid := by
  intro lines
  induction lines with
  | nil => intro a ann h; exact Or.inl h
  | cons l rest ih =>
    intro a ann h
    rw [List.foldl_cons] at h
    rcases ih (lineStep W H iid a l) ann h with h1 | h2
    · unfold lineStep at h1
      split at h1
      · simp only [List.mem_append, List.mem_singleton] at h1
        rcases h1 with h3 | h4
        · exact Or.inl h3
        · right; rw [h4]
      · exact Or.inl h1
    · exact Or.inr h2

theorem lineStep_fold_cid (n W H : ℤ) (iid : ℕ) :
    ∀ (lines : List YoloLine), (∀ l ∈ lines, 0 ≤ l.classId ∧ l.classId < n) →
      ∀ (a : List OutCocoAnn × ℕ),
        (∀ ann ∈ a.1, 0 ≤ ann.category_id ∧ ann.category_id < n) →
        ∀ ann ∈ (lines.foldl (lineStep W H iid) a).1,
          0 ≤ ann.category_id ∧ ann.category_id < n := by
  intro lines
  induction lines with
  | nil => intro _ a ha ann h; exact ha ann h
  | cons l rest ih =>
    intro hl a ha ann h
    rw [List.foldl_cons] at h
    refine ih (fun l2 hl2 => hl l2 (List.mem_cons_of_mem _ hl2)) _ ?_ ann h
    intro ann2 h2
    unfold lineStep at h2
    split at h2
    · simp only [List.mem_append, List.mem_singleton] at h2
      rcases h2 with h3 | h4
      · exact ha ann2 h3
      · rw [h4]; exact hl l (List.mem_cons_self _ _)
    · exact ha ann2 h2

theorem fileStep_fold_inv :
    ∀ (files : List YoloFile) (acc : Y2CAcc),
      (∀ ann ∈ acc.anns, ∃ img ∈ acc.images, img.id = ann.image_id) →
      ∀ ann ∈ (files.foldl fileStep acc).anns,
        ∃ img ∈ (files.foldl fileStep acc).images, img.id = ann.image_id := by
  intro files
  induction files with
  | nil => intro acc h; exact h
  | cons f rest ih =>
    intro acc h
    rw [List.foldl_cons]
    apply ih
    intro ann hann
    cases hf : f.image with
    | none =>
      unfold fileStep at hann ⊢
      rw [hf] at hann ⊢
      exact h ann hann
    | some t =>
      obtain ⟨nameExt, W, H⟩ := t
      unfold fileStep at hann ⊢
      rw [hf] at hann ⊢
      simp only at hann ⊢
      rcases lineStep_fold_mem W H acc.images.length f.lines
          (acc.anns, acc.nextId) ann hann with h1 | h2
      · obtain ⟨img, himg, hid⟩ := h ann h1
        exact ⟨img, List.mem_append_left _ himg, hid⟩
      · refine ⟨⟨acc.images.length, W, H, nameExt⟩,
          List.mem_append_right _ (List.mem_singleton.mpr rfl), ?_⟩
        rw [h2]

theorem fileStep_fold_cid (n : ℤ) :
    ∀ (files : List YoloFile),
      (∀ f ∈ files, ∀ l ∈ f.lines, 0 ≤ l.classId ∧ l.classId < n) →
      ∀ (acc : Y2CAcc),
        (∀ ann ∈ acc.anns, 0 ≤ ann.category_id ∧ ann.category_id < n) →
        ∀ ann ∈ (files.foldl fileStep acc).anns,
          0 ≤ ann.category_id ∧ ann.category_id < n := by
  intro files
  induction files with
  | nil => intro _ acc ha ann h; exact ha ann h
  | cons f rest ih =>
    intro hf acc ha ann h
    rw [List.foldl_cons] at h
    refine ih (fun f2 hf2 => hf f2 (List.mem_cons_of_mem _ hf2)) _ ?_ ann h
    intro ann2 h2
    cases hfi : f.image with
    | none =>
      unfold fileStep at h2
      rw [hfi] at h2
      exact ha ann2 h2
    | some t =>
      obtain ⟨nameExt, W, H⟩ := t
      unfold fileStep at h2
      rw [hfi] at h2
      simp only at h2
      exact lineStep_fold_cid n W H acc.images.length f.lines
        (hf f (List.mem_cons_self _ _)) (acc.anns, acc.nextId) ha ann2 h2

theorem catsFrom_mem :
    ∀ (classes : List String) (i k : ℕ), k < classes.length →
      ∃ cat ∈ catsFrom i classes, cat.id = i + k := by
  intro classes
  induction classes with
  | nil => intro i k h; exact absurd h (Nat.not_lt_zero k)
  | cons v rest ih =>
    intro i k h
    cases k with
    | zero => exact ⟨⟨i, v⟩, List.mem_cons_self _ _, rfl⟩
    | succ k2 =>
      obtain ⟨cat, hmem, hid⟩ := ih (i + 1) k2 (Nat.lt_of_succ_lt_succ h)
      exact ⟨cat, List.mem_cons_of_mem _ hmem, by omega⟩

/-- Claim C9 counterexample: with three loaded class names (category
ids 0, 1, 2) and a line whose class token is 99, the emitted annotation
carries category_id 99, which is the id of no emitted category, so the
category half of the referential-integrity claim fails. -/
theorem c9_counterexample :
    (yolo_to_coco cls9 files9).annotations.map (fun a => a.category_id) = [99] ∧
    (yolo_to_coco cls9 files9).categories.map (fun c => (c.id : ℤ)) = [0, 1, 2] ∧
    ((yolo_to_coco cls9 files9).categories.all (fun c => (c.id : ℤ) != 99)) = true := by
  with_unfolding_all decide

/-- Claim C9 amended: every emitted annotation references an emitted
image (image ids are assigned by position, and each annotation is
tagged with the id of the image appended for its file); the emitted
category_id is the class token copied verbatim from the line, so it
references an emitted category whenever every class token of the input
lies in range of the loaded class-name list (whose category ids are
assigned by list position). -/
theorem c9_amended :
    (∀ (classes : List String) (files : List YoloFile) (ann : OutCocoAnn),
      ann ∈ (yolo_to_coco classes files).annotations →
      ∃ img ∈ (yolo_to_coco classes files).images, img.id = ann.image_id) ∧
    (∀ (classes : List String) (files : List YoloFile),
      (∀ f ∈ files, ∀ l ∈ f.lines, 0 ≤ l.classId ∧ l.classId < (classes.length : ℤ)) →
      ∀ ann ∈ (yolo_to_coco classes files).annotations,
        ∃ cat ∈ (yolo_to_coco classes files).categories, (cat.id : ℤ) = ann.category_id) := by
  constructor
  · intro classes files ann h
    exact fileStep_fold_inv files { images := [], anns := [], nextId := 1, warns := [] }
      (fun a ha => absurd ha (List.not_mem_nil a)) ann h
  · intro classes files hb ann h
    obtain ⟨h0, hlt⟩ := fileStep_fold_cid (classes.length : ℤ) files hb
      { images := [], anns := [], nextId := 1, warns := [] }
      (fun a ha => absurd ha (List.not_mem_nil a)) ann h
    have hk : ann.category_id.toNat < classes.length := by omega
    obtain ⟨cat, hmem, hid⟩ := catsFrom_mem classes 0 ann.category_id.toNat hk
    refine ⟨cat, hmem, ?_⟩
    rw [hid]
    simp [Int.toNat_of_nonneg h0]

/-- Witness for claim C9 amended on a concrete input with two class
names and one in-range line. -/
theorem c9_amended_witness :
    (∃ img ∈ (yolo_to_coco cls9w files9w).images,
      img.id = OutCocoAnn.image_id
        { id := 1, image_id := 0, category_id := 1, bbox := ⟨4, 4, 2, 2⟩, area := 4, iscrowd := 0 }) ∧
    (∃ cat ∈ (yolo_to_coco cls9w files9w).categories,
      (cat.id : ℤ) = OutCocoAnn.category_id
        { id := 1, image_id := 0, category_id := 1, bbox := ⟨4, 4, 2, 2⟩, area := 4, iscrowd := 0 }) :=
  ⟨c9_amended.1 cls9w files9w
      { id := 1, image_id := 0, category_id := 1, bbox := ⟨4, 4, 2, 2⟩, area := 4, iscrowd := 0 }
      (by with_unfolding_all decide),
   c9_amended.2 cls9w files9w (by with_unfolding_all decide)
      { id := 1, image_id := 0, category_id := 1, bbox := ⟨4, 4, 2, 2⟩, area := 4, iscrowd := 0 }
      (by with_unfolding_all decide)⟩

theorem dictInsert_key {α β : Type} [BEq α] (k : α) (v : β)
    (d : List (α × β)) (p : α × β) (hp : p ∈ dictInsert k v d) :
    p.1 = k ∨ ∃ q ∈ d, p.1 = q.1 := by
  unfold dictInsert at hp
  split at hp
  · obtain ⟨q, hq, hpq⟩ := List.mem_map.mp hp
    by_cases h : (q.1 == k) = true
    · rw [if_pos h] at hpq
      left; rw [← hpq]
    · rw [if_neg h] at hpq
      right; exact ⟨q, hq, by rw [← hpq]⟩
  · rcases List.mem_append.mp hp with h1 | h2
    · right; exact ⟨p, h1, rfl⟩
    · left
      rw [List.mem_singleton.mp h2]

theorem buildCategoryToIdAux_keys (k : String) :
    ∀ (values : List String) (i : ℕ) (d : List (String × ℕ)),
      (∀ p ∈ d, p.1 ≠ k) → (values.all (fun n => n != k)) = true →
      ∀ p ∈ buildCategoryToIdAux i d values, p.1 ≠ k := by
  intro values
  induction values with
  | nil => intro i d hd _ p hp; exact hd p hp
  | cons v rest ih =>
    intro i d hd hall p hp
    simp only [List.all_cons, Bool.and_eq_true, bne_iff_ne] at hall
    obtain ⟨hv, hrest⟩ := hall
    refine ih (i + 1) (dictInsert v i d) ?_ (by simpa [List.all_eq_true, bne_iff_ne] using hrest) p hp
    intro q hq
    rcases dictInsert_key v i d q hq with h1 | ⟨r, hr, h2⟩
    · rw [h1]; exact hv
    · rw [h2]; exact hd r hr

theorem dictGet?_none {α β : Type} [BEq α] (d : List (α × β)) (k : α)
    (h : ∀ p ∈ d, ¬((p.1 == k) = true)) : dictGet? d k = none := by
  unfold dictGet?
  rw [List.find?_eq_none.mpr h]
  rfl

/-- Claim C10 counterexample: when the dataset itself contains a
category literally named unknown (here in second position), an
annotation whose category id is absent from the categories list falls
back to the name unknown, which is registered, and the emitted line
carries the index 1 of that category rather than the claimed index 0. -/
theorem c10_counterexample :
    dictGet? (convCats ds10cex) 5 = none ∧
    (coco_to_yolo ds10cex none none).files.map (fun p => p.2.map (fun l => l.class_id)) = [[1]] ∧
    (((coco_to_yolo ds10cex none none).files.map (fun p => p.2.map (fun l => l.class_id))) ==
      [[0]]) = false := by
  with_unfolding_all decide

/-- Claim C10 amended: the class registry is built solely from the
dataset categories list, so annotation processing never registers the
fallback name unknown (the emitted classes list does not depend on the
annotations at all); provided no dataset category is itself named
unknown, an annotation whose category id is absent from the categories
list is emitted with class index 0, conflating it with the class
registered at index 0; when a category is named unknown the annotation
instead receives the registered index of that category. -/
theorem c10_amended :
    (∀ (d : CocoDataset) (a2 : Option (List CocoAnn)) (dW dH : Option ℤ),
      (coco_to_yolo { d with annotations := a2 } dW dH).classes =
        (coco_to_yolo d dW dH).classes) ∧
    (∀ (d : CocoDataset) (W H : ℤ) (a : CocoAnn),
      dictGet? (convCats d) a.category_id = none →
      (((convCats d).map (fun p => p.2)).all (fun n => n != ("unknown"))) = true →
      (yoloLineFor (convCats d) (convCatToId d) W H a).class_id = 0) := by
  constructor
  · intro d a2 dW dH; rfl
  · intro d W H a hget hall
    have hproj : (yoloLineFor (convCats d) (convCatToId d) W H a).class_id =
        (dictGet? (convCatToId d)
          ((dictGet? (convCats d) a.category_id).getD ("unknown"))).getD 0 := rfl
    rw [hproj, hget]
    have hnone : dictGet? (convCatToId d) ("unknown") = none := by
      apply dictGet?_none
      intro p hp
      have hp2 : p ∈ buildCategoryToIdAux 0 [] ((convCats d).map (fun q => q.2)) := hp
      have hne : p.1 ≠ ("unknown") :=
        buildCategoryToIdAux_keys ("unknown") ((convCats d).map (fun q => q.2)) 0 []
          (fun q hq => absurd hq (List.not_mem_nil q)) hall p hp2
      simp [hne]
    simp [hnone]

/-- Witness for claim C10 amended on a dataset with ordinary category
names and an annotation referencing the absent category id 7. -/
theorem c10_amended_witness :
    (coco_to_yolo { ds10w with annotations := some [] } none none).classes =
      (coco_to_yolo ds10w none none).classes ∧
    (yoloLineFor (convCats ds10w) (convCatToId ds10w) 10 10
      { id := 1, image_id := 1, category_id := 7, bbox := ⟨0, 0, 1, 1⟩ }).class_id = 0 :=
  ⟨c10_amended.1 ds10w (some []) none none,
   c10_amended.2 ds10w 10 10 { id := 1, image_id := 1, category_id := 7, bbox := ⟨0, 0, 1, 1⟩ }
     (by with_unfolding_all decide) (by with_unfolding_all decide)⟩
